import Mathlib

/-!
Shallow embedding of the librescoot keycard-service credential store
(keycard/auth.go), the LED blink controller (keycard/led.go) and the
tag-session / authentication state machine (keycard/service.go and the
event-driven service variant).

Strings model Go strings; the persisted files are modelled as lists of
lines; fallibility of the file writes is modelled by an explicit Bool
flag per write (true = the write succeeds).
-/

/-- Go strings.ToUpper restricted to the character-wise uppercase map
(identifiers are ASCII hex strings). -/
def toUpperStr (s : String) : String := String.mk (s.data.map Char.toUpper)

/-- Go strings.TrimSpace: drop leading and trailing whitespace. -/
def trimStr (s : String) : String :=
  String.mk (((s.data.dropWhile Char.isWhitespace).reverse.dropWhile
    Char.isWhitespace).reverse)

/-- The linear-scan membership loop used by IsMaster, IsAuthorized and
AddAuthorized in auth.go. -/
def containsUID : List String → String → Bool
  | [], _ => false
  | m :: rest, u => if m = u then true else containsUID rest u

/-- The two persisted text files under the data directory, as lists of
lines. -/
structure Disk where
  masterFile : List String
  authorizedFile : List String
deriving Repr, DecidableEq

/-- In-memory state of AuthManager (auth.go). -/
structure AuthManager where
  masterUIDs : List String
  authorizedUIDs : List String
deriving Repr, DecidableEq

/-- Line parsing shared by loadMasterUIDs and loadAuthorizedUIDs:
trim each line, skip empties, store uppercased. -/
def parseUIDLines : List String → List String
  | [] => []
  | l :: rest =>
    let uid := trimStr l
    if uid = "" then parseUIDLines rest
    else toUpperStr uid :: parseUIDLines rest

/-- NewAuthManager loading both files (a missing file reads as no lines). -/
def loadAuthManager (d : Disk) : AuthManager :=
  ⟨parseUIDLines d.masterFile, parseUIDLines d.authorizedFile⟩

def HasMaster (am : AuthManager) : Bool :=
  decide (0 < am.masterUIDs.length)

def IsMaster (am : AuthManager) (uid : String) : Bool :=
  containsUID am.masterUIDs (toUpperStr uid)

def IsAuthorized (am : AuthManager) (uid : String) : Bool :=
  let u := toUpperStr uid
  if containsUID am.masterUIDs u then true
  else containsUID am.authorizedUIDs u

def GetAuthorizedCount (am : AuthManager) : Nat :=
  am.authorizedUIDs.length

/-- Result of a single file write: the new disk and whether an error
occurred. -/
structure SaveResult where
  disk : Disk
  err : Bool
deriving Repr, DecidableEq

/-- saveMasterUIDs: rewrite the master file in full; on failure the disk
is unchanged. -/
def saveMasterUIDs (am : AuthManager) (d : Disk) (ok : Bool) : SaveResult :=
  if ok then ⟨{ d with masterFile := am.masterUIDs }, false⟩ else ⟨d, true⟩

/-- saveAuthorizedUIDs: rewrite the authorized file in full; on failure
the disk is unchanged. -/
def saveAuthorizedUIDs (am : AuthManager) (d : Disk) (ok : Bool) : SaveResult :=
  if ok then ⟨{ d with authorizedFile := am.authorizedUIDs }, false⟩ else ⟨d, true⟩

structure SetMasterResult where
  am : AuthManager
  disk : Disk
  err : Bool
deriving Repr, DecidableEq

/-- SetMaster (auth.go): uppercase the uid, overwrite the in-memory
master list with the singleton, clear the in-memory authorized list,
then persist the master file and, if that succeeded, the authorized
file.  The in-memory mutation happens before any write. -/
def SetMaster (am : AuthManager) (d : Disk) (uid : String)
    (okMaster okAuth : Bool) : SetMasterResult :=
  let u := toUpperStr uid
  let am1 : AuthManager := ⟨[u], []⟩
  let r1 := saveMasterUIDs am1 d okMaster
  if r1.err then ⟨am1, r1.disk, true⟩
  else
    let r2 := saveAuthorizedUIDs am1 r1.disk okAuth
    ⟨am1, r2.disk, r2.err⟩

structure AddResult where
  am : AuthManager
  disk : Disk
  added : Bool
  err : Bool
deriving Repr, DecidableEq

/-- AddAuthorized (auth.go): uppercase the uid; if it is a master or
already in the authorized list, return added = false without mutation;
otherwise append it in memory and persist the authorized file,
returning added = true together with the write outcome. -/
def AddAuthorized (am : AuthManager) (d : Disk) (uid : String)
    (okAuth : Bool) : AddResult :=
  let u := toUpperStr uid
  if containsUID am.masterUIDs u then ⟨am, d, false, false⟩
  else if containsUID am.authorizedUIDs u then ⟨am, d, false, false⟩
  else
    let am1 : AuthManager := { am with authorizedUIDs := am.authorizedUIDs ++ [u] }
    let r := saveAuthorizedUIDs am1 d okAuth
    ⟨am1, r.disk, true, r.err⟩

/-- Card roles of the spec contract.  Master check takes precedence, as
in IsAuthorized where the master loop runs first. -/
inductive Role
  | master
  | authorized
  | unknown
deriving Repr, DecidableEq

/-- roleOf from the spec contract, realised by the auth.go loops:
master list first, then the authorized list. -/
def roleOf (am : AuthManager) (uid : String) : Role :=
  if IsMaster am uid then Role.master
  else if containsUID am.authorizedUIDs (toUpperStr uid) then Role.authorized
  else Role.unknown

/-- Modelled from the spec: the canonical identifier form under the
case-insensitive and whitespace-insensitive comparison that section 8
and the NormalizesUIDs test demand — every whitespace character removed
and the rest uppercased.  Used only to compare against the embedded
code behaviour. -/
def canonSpec (s : String) : String :=
  toUpperStr (String.mk (s.data.filter (fun c => !c.isWhitespace)))

/-- LEDController state (led.go): whether the blink goroutine is active
and whether the green indicator is currently lit.  The goroutine body
that switches the indicator off upon the stop signal is folded into
StopBlink. -/
structure LEDController where
  blinking : Bool
  ledOn : Bool
deriving Repr, DecidableEq

def LEDControllerOn (l : LEDController) : LEDController :=
  { l with ledOn := true }

def LEDControllerOff (l : LEDController) : LEDController :=
  { l with ledOn := false }

/-- StartBlink (led.go): no-op while already blinking; otherwise mark
blinking (the indicator itself first changes on the first tick). -/
def StartBlink (l : LEDController) : LEDController :=
  if l.blinking then l else { l with blinking := true }

/-- StopBlink (led.go): returns immediately when not blinking;
otherwise signals the blink goroutine, which switches the indicator
off, and clears the blinking flag. -/
def StopBlink (l : LEDController) : LEDController :=
  if l.blinking then ⟨false, false⟩ else l

/-- Observable side effects of one arrival handling pass. -/
inductive Effect
  | ambientLookup
  | flashGranted
  | flashDenied
  | publishAuth (uid : String)
  | blinkStart
  | blinkStop
  | linearOn (led : Nat)
  | linearOff (led : Nat)
deriving Repr, DecidableEq

/-- Service state (service.go): credential store plus disk, the two
mode flags, the pending new-uid list and the card-presence tracking
fields of the event-driven variant. -/
structure Service where
  auth : AuthManager
  disk : Disk
  masterLearningMode : Bool
  learnMode : Bool
  newUIDs : List String
  currentCardUID : String
  lastSeenTime : Nat
  emptyPollCount : Nat
deriving Repr, DecidableEq

/-- Result of one handler pass: the next service state, the emitted
indicator and notification effects in order, and whether a persistence
error occurred inside the pass. -/
structure StepResult where
  service : Service
  effects : List Effect
  persistErr : Bool
deriving Repr, DecidableEq

/-- learnMasterUID (service.go): SetMaster, and only on success leave
master-learning mode, stop the blink and flash. -/
def learnMasterUID (s : Service) (uid : String) (okMaster okAuth : Bool) : StepResult :=
  let r := SetMaster s.auth s.disk uid okMaster okAuth
  if r.err then ⟨{ s with auth := r.am, disk := r.disk }, [], true⟩
  else ⟨{ s with auth := r.am, disk := r.disk, masterLearningMode := false },
        [Effect.blinkStop, Effect.flashGranted], false⟩

/-- enterLearnMode (service.go). -/
def enterLearnMode (s : Service) : StepResult :=
  ⟨{ s with learnMode := true, newUIDs := [] },
   [Effect.linearOn 3, Effect.linearOn 7], false⟩

/-- exitLearnMode (service.go). -/
def exitLearnMode (s : Service) : StepResult :=
  ⟨{ s with learnMode := false, newUIDs := [] },
   [Effect.linearOff 3, Effect.linearOff 7], false⟩

/-- learnUID (service.go): AddAuthorized; on error only the store and
disk change; on a fresh add record the uid and flash. -/
def learnUID (s : Service) (uid : String) (okAuth : Bool) : StepResult :=
  let r := AddAuthorized s.auth s.disk uid okAuth
  if r.err then ⟨{ s with auth := r.am, disk := r.disk }, [], true⟩
  else if r.added then
    ⟨{ s with auth := r.am, disk := r.disk, newUIDs := s.newUIDs ++ [uid] },
     [Effect.flashGranted], false⟩
  else ⟨{ s with auth := r.am, disk := r.disk }, [], false⟩

/-- grantAccess (service.go): flash the granted colour and publish. -/
def grantAccess (s : Service) (uid : String) : StepResult :=
  ⟨s, [Effect.flashGranted, Effect.publishAuth uid], false⟩

/-- handleTagArrival (service.go): ambient lookup colour first, then
dispatch on the mode flags and the role of the presented uid. -/
def handleTagArrival (s : Service) (uid : String) (okMaster okAuth : Bool) : StepResult :=
  if s.masterLearningMode then
    let r := learnMasterUID s uid okMaster okAuth
    ⟨r.service, Effect.ambientLookup :: r.effects, r.persistErr⟩
  else if !s.learnMode then
    if IsMaster s.auth uid then
      let r := enterLearnMode s
      ⟨r.service, Effect.ambientLookup :: r.effects, r.persistErr⟩
    else if IsAuthorized s.auth uid then
      let r := grantAccess s uid
      ⟨r.service, Effect.ambientLookup :: r.effects, r.persistErr⟩
    else ⟨s, [Effect.ambientLookup, Effect.flashDenied], false⟩
  else
    if IsMaster s.auth uid then
      let r := exitLearnMode s
      ⟨r.service, Effect.ambientLookup :: r.effects, r.persistErr⟩
    else
      let r := learnUID s uid okAuth
      ⟨r.service, Effect.ambientLookup :: r.effects, r.persistErr⟩

/-- handleTagDetection (event-driven service variant): a uid differing
from the tracked current card is a new logical arrival; the same uid is
a presence refresh that only updates the last-seen bookkeeping. -/
def handleTagDetection (s : Service) (uid : String) (now : Nat)
    (okMaster okAuth : Bool) : StepResult :=
  if s.currentCardUID ≠ uid then
    let s1 := { s with currentCardUID := uid, lastSeenTime := now, emptyPollCount := 0 }
    handleTagArrival s1 uid okMaster okAuth
  else
    ⟨{ s with lastSeenTime := now, emptyPollCount := 0 }, [], false⟩

/-- The operating mode of the state machine as the pair of mode flags. -/
def modeOf (s : Service) : Bool × Bool :=
  (s.masterLearningMode, s.learnMode)

/-- The no-duplication store invariant: no master uid appears in the
authorized list. -/
def masterNotInAuthorized (am : AuthManager) : Prop :=
  ∀ u ∈ am.masterUIDs, u ∉ am.authorizedUIDs

instance (am : AuthManager) : Decidable (masterNotInAuthorized am) :=
  List.decidableBAll _ am.masterUIDs

/-- One mutating store operation on the paired in-memory and on-disk
state. -/
inductive StoreStep : AuthManager × Disk → AuthManager × Disk → Prop
  | set (am : AuthManager) (d : Disk) (uid : String) (okMaster okAuth : Bool) :
      StoreStep (am, d)
        ((SetMaster am d uid okMaster okAuth).am, (SetMaster am d uid okMaster okAuth).disk)
  | add (am : AuthManager) (d : Disk) (uid : String) (okAuth : Bool) :
      StoreStep (am, d)
        ((AddAuthorized am d uid okAuth).am, (AddAuthorized am d uid okAuth).disk)

theorem containsUID_iff (l : List String) (u : String) :
    containsUID l u = true ↔ u ∈ l := by
  induction l with
  | nil => simp [containsUID]
  | cons m rest ih =>
    by_cases h : m = u
    · subst h; simp [containsUID]
    · have hr : containsUID (m :: rest) u = containsUID rest u := by
        simp [containsUID, h]
      rw [hr, ih]
      constructor
      · exact List.mem_cons_of_mem m
      · intro hm
        rcases List.mem_cons.mp hm with he | hm2
        · exact absurd he.symm h
        · exact hm2

theorem containsUID_append_self (l : List String) (u : String) :
    containsUID (l ++ [u]) u = true := by
  induction l with
  | nil => simp [containsUID]
  | cons m rest ih => by_cases h : m = u <;> simp [containsUID, h, ih]

theorem SetMaster_am (am : AuthManager) (d : Disk) (uid : String)
    (okMaster okAuth : Bool) :
    (SetMaster am d uid okMaster okAuth).am = ⟨[toUpperStr uid], []⟩ := by
  cases okMaster <;> cases okAuth <;> rfl

theorem SetMaster_err (am : AuthManager) (d : Disk) (uid : String)
    (okMaster okAuth : Bool) :
    (SetMaster am d uid okMaster okAuth).err = !(okMaster && okAuth) := by
  cases okMaster <;> cases okAuth <;> rfl

theorem AddAuthorized_of_present (am : AuthManager) (d : Disk) (uid : String)
    (okAuth : Bool)
    (h : containsUID am.masterUIDs (toUpperStr uid) = true ∨
         containsUID am.authorizedUIDs (toUpperStr uid) = true) :
    AddAuthorized am d uid okAuth = ⟨am, d, false, false⟩ := by
  rcases h with h | h
  · simp [AddAuthorized, h]
  · by_cases h1 : containsUID am.masterUIDs (toUpperStr uid) = true
    · simp [AddAuthorized, h1]
    · simp [AddAuthorized, h1, h]

theorem AddAuthorized_of_new (am : AuthManager) (d : Disk) (uid : String)
    (okAuth : Bool)
    (h1 : containsUID am.masterUIDs (toUpperStr uid) = false)
    (h2 : containsUID am.authorizedUIDs (toUpperStr uid) = false) :
    AddAuthorized am d uid okAuth =
      ⟨{ am with authorizedUIDs := am.authorizedUIDs ++ [toUpperStr uid] },
       (saveAuthorizedUIDs
         { am with authorizedUIDs := am.authorizedUIDs ++ [toUpperStr uid] } d okAuth).disk,
       true,
       (saveAuthorizedUIDs
         { am with authorizedUIDs := am.authorizedUIDs ++ [toUpperStr uid] } d okAuth).err⟩ := by
  simp [AddAuthorized, h1, h2]

theorem AddAuthorized_contains (am : AuthManager) (d : Disk) (uid : String)
    (okAuth : Bool) :
    (containsUID (AddAuthorized am d uid okAuth).am.masterUIDs (toUpperStr uid) ||
     containsUID (AddAuthorized am d uid okAuth).am.authorizedUIDs (toUpperStr uid)) = true := by
  by_cases h1 : containsUID am.masterUIDs (toUpperStr uid) = true
  · rw [AddAuthorized_of_present am d uid okAuth (Or.inl h1)]; simp [h1]
  · by_cases h2 : containsUID am.authorizedUIDs (toUpperStr uid) = true
    · rw [AddAuthorized_of_present am d uid okAuth (Or.inr h2)]; simp [h2]
    · rw [AddAuthorized_of_new am d uid okAuth (by simpa using h1) (by simpa using h2)]
      simp [containsUID_append_self]

/-- Claim C1, counterexample: the claimed boolean polarity is the
reverse of the code.  AddAuthorized returns false when the id equals
the master (the claim says true) and returns true after inserting a new
id (the claim says false). -/
theorem addAuthorized_polarity_cex :
    (AddAuthorized ⟨["AA"], []⟩ ⟨["AA"], []⟩ "AA" true).added = false ∧
    (AddAuthorized ⟨["AA"], []⟩ ⟨["AA"], []⟩ "BB" true).added = true := by
  decide

/-- Claim C1, amended: for every id and store state, AddAuthorized
returns false and performs no mutation when the uppercased id equals a
master or is already in the authorized set, and returns true after
inserting (and, when the write succeeds, persisting) a new id. -/
theorem addAuthorized_polarity (am : AuthManager) (d : Disk) (uid : String)
    (okAuth : Bool) :
    ((containsUID am.masterUIDs (toUpperStr uid) = true ∨
      containsUID am.authorizedUIDs (toUpperStr uid) = true) →
      (AddAuthorized am d uid okAuth).added = false ∧
      (AddAuthorized am d uid okAuth).am = am ∧
      (AddAuthorized am d uid okAuth).disk = d ∧
      (AddAuthorized am d uid okAuth).err = false) ∧
    ((containsUID am.masterUIDs (toUpperStr uid) = false ∧
      containsUID am.authorizedUIDs (toUpperStr uid) = false) →
      (AddAuthorized am d uid okAuth).added = true ∧
      (AddAuthorized am d uid okAuth).am.authorizedUIDs =
        am.authorizedUIDs ++ [toUpperStr uid] ∧
      (okAuth = true →
        (AddAuthorized am d uid okAuth).disk.authorizedFile =
          am.authorizedUIDs ++ [toUpperStr uid] ∧
        (AddAuthorized am d uid okAuth).err = false)) := by
  constructor
  · intro h
    rw [AddAuthorized_of_present am d uid okAuth h]
    exact ⟨rfl, rfl, rfl, rfl⟩
  · rintro ⟨h1, h2⟩
    rw [AddAuthorized_of_new am d uid okAuth h1 h2]
    refine ⟨rfl, rfl, ?_⟩
    rintro rfl
    exact ⟨rfl, rfl⟩

/-- Claim C1, witness: both branches of the amended contract evaluated
at concrete stores. -/
theorem addAuthorized_polarity_app :
    ((AddAuthorized ⟨["CC"], ["DD"]⟩ ⟨["CC"], ["DD"]⟩ "dd" true).added = false ∧
     (AddAuthorized ⟨["CC"], ["DD"]⟩ ⟨["CC"], ["DD"]⟩ "dd" true).am = ⟨["CC"], ["DD"]⟩ ∧
     (AddAuthorized ⟨["CC"], ["DD"]⟩ ⟨["CC"], ["DD"]⟩ "dd" true).disk = ⟨["CC"], ["DD"]⟩ ∧
     (AddAuthorized ⟨["CC"], ["DD"]⟩ ⟨["CC"], ["DD"]⟩ "dd" true).err = false) ∧
    (AddAuthorized ⟨["CC"], ["DD"]⟩ ⟨["CC"], ["DD"]⟩ "ee" true).added = true :=
  ⟨(addAuthorized_polarity ⟨["CC"], ["DD"]⟩ ⟨["CC"], ["DD"]⟩ "dd" true).1
      (Or.inr (by decide)),
   (((addAuthorized_polarity ⟨["CC"], ["DD"]⟩ ⟨["CC"], ["DD"]⟩ "ee" true).2
      ⟨by decide, by decide⟩).1)⟩

/-- Claim C2, counterexample: with both backing writes failing,
SetMaster returns an error yet the in-memory store has already been
replaced, so the pre-call state is not retained. -/
theorem setMaster_no_rollback_cex :
    (SetMaster ⟨["AA"], ["BB"]⟩ ⟨["AA"], ["BB"]⟩ "CC" false false).err = true ∧
    (SetMaster ⟨["AA"], ["BB"]⟩ ⟨["AA"], ["BB"]⟩ "CC" false false).am ≠
      ⟨["AA"], ["BB"]⟩ ∧
    (SetMaster ⟨["AA"], ["BB"]⟩ ⟨["AA"], ["BB"]⟩ "CC" false false).am =
      ⟨["CC"], []⟩ := by
  decide

/-- Claim C2, amended: SetMaster replaces the in-memory master and
clears the in-memory authorized set before any write, so on a write
failure it returns an error while memory already holds the new state
(memory runs ahead of disk; no rollback). -/
theorem setMaster_memory_ahead (am : AuthManager) (d : Disk) (uid : String)
    (okMaster okAuth : Bool) :
    (SetMaster am d uid okMaster okAuth).am = ⟨[toUpperStr uid], []⟩ ∧
    (SetMaster am d uid okMaster okAuth).err = !(okMaster && okAuth) := by
  cases okMaster <;> cases okAuth <;> exact ⟨rfl, rfl⟩

/-- Claim C3: after a successful SetMaster the master list is exactly
the uppercased new id, the authorized count is zero and no identifier
has the Authorized role any more. -/
theorem setMaster_clears_authorized (am : AuthManager) (d : Disk) (m : String) :
    (SetMaster am d m true true).err = false ∧
    (SetMaster am d m true true).am.masterUIDs = [toUpperStr m] ∧
    GetAuthorizedCount (SetMaster am d m true true).am = 0 ∧
    ∀ p : String, roleOf (SetMaster am d m true true).am p ≠ Role.authorized := by
  refine ⟨rfl, rfl, rfl, ?_⟩
  intro p
  show roleOf ⟨[toUpperStr m], []⟩ p ≠ Role.authorized
  unfold roleOf
  split
  · simp
  · simp [containsUID]

/-- Claim C4: AddAuthorized is idempotent — after any first call with
some id, a second call with the same id reports it as already present
(added = false), leaves the store unchanged and keeps the authorized
count, and a third call reports already present again. -/
theorem addAuthorized_idem (am : AuthManager) (d : Disk) (uid : String)
    (ok1 ok2 ok3 : Bool) :
    (AddAuthorized (AddAuthorized am d uid ok1).am
      (AddAuthorized am d uid ok1).disk uid ok2).added = false ∧
    (AddAuthorized (AddAuthorized am d uid ok1).am
      (AddAuthorized am d uid ok1).disk uid ok2).am =
      (AddAuthorized am d uid ok1).am ∧
    GetAuthorizedCount (AddAuthorized (AddAuthorized am d uid ok1).am
      (AddAuthorized am d uid ok1).disk uid ok2).am =
      GetAuthorizedCount (AddAuthorized am d uid ok1).am ∧
    (AddAuthorized (AddAuthorized (AddAuthorized am d uid ok1).am
        (AddAuthorized am d uid ok1).disk uid ok2).am
      (AddAuthorized (AddAuthorized am d uid ok1).am
        (AddAuthorized am d uid ok1).disk uid ok2).disk uid ok3).added = false := by
  have hmem := AddAuthorized_contains am d uid ok1
  have hsecond :
      AddAuthorized (AddAuthorized am d uid ok1).am
        (AddAuthorized am d uid ok1).disk uid ok2 =
        ⟨(AddAuthorized am d uid ok1).am, (AddAuthorized am d uid ok1).disk,
         false, false⟩ :=
    AddAuthorized_of_present _ _ _ _ (Bool.or_eq_true_iff.mp hmem)
  rw [hsecond]
  have hthird :
      AddAuthorized (AddAuthorized am d uid ok1).am
        (AddAuthorized am d uid ok1).disk uid ok3 =
        ⟨(AddAuthorized am d uid ok1).am, (AddAuthorized am d uid ok1).disk,
         false, false⟩ :=
    AddAuthorized_of_present _ _ _ _ (Bool.or_eq_true_iff.mp hmem)
  exact ⟨rfl, rfl, rfl, by rw [hthird]⟩

/-- Claim C5: the comparison performed by IsMaster is case-insensitive
but not whitespace-insensitive, contradicting the repositories own
NormalizesUIDs test — a persisted master record with interior spaces
fails to match the spaceless query even though the canonical
whitespace-insensitive forms agree (and the test expects a match). -/
theorem isMaster_whitespace_divergence :
    IsMaster (loadAuthManager ⟨["AA BB CC DD"], []⟩) "AABBCCDD" = false ∧
    canonSpec "AA BB CC DD" = canonSpec "AABBCCDD" ∧
    IsMaster ⟨["AB"], []⟩ " AB" = false ∧
    canonSpec " AB" = canonSpec "AB" := by
  decide

/-- Claim C6, counterexample: construction from persisted files that
list the same identifier in both records yields a store whose master
also appears literally in the authorized set, so the invariant does not
hold in every state reachable through construction. -/
theorem load_duplicates_invariant_cex :
    ¬ masterNotInAuthorized (loadAuthManager ⟨["AB"], ["AB"]⟩) := by
  decide

/-- Claim C6, amended: SetMaster and AddAuthorized preserve the
no-duplication invariant, so it holds in every state reachable from an
invariant-satisfying state through any sequence of the two mutating
operations; loading, however, does not filter the master out of the
authorized file. -/
theorem storeOps_preserve_invariant (p q : AuthManager × Disk)
    (hreach : Relation.ReflTransGen StoreStep p q)
    (hinv : masterNotInAuthorized p.1) :
    masterNotInAuthorized q.1 := by
  induction hreach with
  | refl => exact hinv
  | tail _ hstep ih =>
    cases hstep with
    | set am d uid okMaster okAuth =>
      rw [SetMaster_am]
      intro u hu
      simp
    | add am d uid okAuth =>
      by_cases h1 : containsUID am.masterUIDs (toUpperStr uid) = true
      · rw [AddAuthorized_of_present am d uid okAuth (Or.inl h1)]
        exact ih
      · by_cases h2 : containsUID am.authorizedUIDs (toUpperStr uid) = true
        · rw [AddAuthorized_of_present am d uid okAuth (Or.inr h2)]
          exact ih
        · rw [AddAuthorized_of_new am d uid okAuth (by simpa using h1)
            (by simpa using h2)]
          intro x hx
          have hxa : x ∉ am.authorizedUIDs := ih x hx
          have hne : x ≠ toUpperStr uid := by
            intro he
            subst he
            exact h1 ((containsUID_iff _ _).mpr hx)
          simp [List.mem_append, hxa, hne]

/-- Claim C6, witness: the invariant holds after setting a master and
then authorizing a second card, starting from the empty store. -/
theorem storeOps_preserve_invariant_app :
    masterNotInAuthorized
      (AddAuthorized (SetMaster ⟨[], []⟩ ⟨[], []⟩ "aa" true true).am
        (SetMaster ⟨[], []⟩ ⟨[], []⟩ "aa" true true).disk "bb" true).am :=
  storeOps_preserve_invariant (⟨[], []⟩, ⟨[], []⟩) _
    (Relation.ReflTransGen.tail
      (Relation.ReflTransGen.single (StoreStep.set ⟨[], []⟩ ⟨[], []⟩ "aa" true true))
      (StoreStep.add _ _ "bb" true))
    (by decide)

/-- Claim C7, counterexample: with the blink inactive and the indicator
lit, StopBlink returns without touching the indicator, so it is not the
case that the indicator is off after every StopBlink call. -/
theorem stopBlink_not_always_off_cex :
    (StopBlink ⟨false, true⟩).ledOn = true := by
  decide

/-- Claim C7, amended: StopBlink leaves the indicator off whenever a
blink was active (it signals the blink goroutine, which switches the
indicator off); when no blink is active it is a no-op and the indicator
keeps its previous state. -/
theorem stopBlink_behavior (l : LEDController) :
    (l.blinking = true → (StopBlink l).ledOn = false) ∧
    (l.blinking = false → StopBlink l = l) := by
  obtain ⟨b, o⟩ := l
  cases b <;> simp [StopBlink]

/-- Claim C7, witness: both branches of the amended contract at
concrete controller states. -/
theorem stopBlink_behavior_app :
    (StopBlink ⟨true, true⟩).ledOn = false ∧
    StopBlink ⟨false, false⟩ = ⟨false, false⟩ :=
  ⟨(stopBlink_behavior ⟨true, true⟩).1 rfl,
   (stopBlink_behavior ⟨false, false⟩).2 rfl⟩

/-- Claim C8: a detection of the identifier already recorded as the
current card is a pure presence refresh — the handler emits no effect
(no flash, no notification), reports no persistence activity, and the
only state change is the last-seen bookkeeping. -/
theorem presence_refresh_no_action (s : Service) (uid : String) (now : Nat)
    (okMaster okAuth : Bool) (h : s.currentCardUID = uid) :
    handleTagDetection s uid now okMaster okAuth =
      ⟨{ s with lastSeenTime := now, emptyPollCount := 0 }, [], false⟩ := by
  simp [handleTagDetection, h]

/-- Claim C8, witness: a refresh of the still-seated card BB updates
only the bookkeeping fields. -/
theorem presence_refresh_no_action_app :
    handleTagDetection
        ⟨⟨["AA"], ["BB"]⟩, ⟨["AA"], ["BB"]⟩, false, false, [], "BB", 0, 0⟩
        "BB" 5 true true =
      ⟨⟨⟨["AA"], ["BB"]⟩, ⟨["AA"], ["BB"]⟩, false, false, [], "BB", 5, 0⟩,
       [], false⟩ :=
  presence_refresh_no_action
    ⟨⟨["AA"], ["BB"]⟩, ⟨["AA"], ["BB"]⟩, false, false, [], "BB", 0, 0⟩
    "BB" 5 true true rfl

theorem learnUID_mode (s : Service) (uid : String) (okAuth : Bool) :
    modeOf (learnUID s uid okAuth).service = modeOf s := by
  simp only [learnUID]
  split
  · rfl
  · split <;> rfl

theorem learnMasterUID_mode_of_err (s : Service) (uid : String)
    (okMaster okAuth : Bool)
    (h : (learnMasterUID s uid okMaster okAuth).persistErr = true) :
    modeOf (learnMasterUID s uid okMaster okAuth).service = modeOf s := by
  revert h
  simp only [learnMasterUID]
  split
  · intro _; rfl
  · intro h; simp at h

/-- Claim C9: whenever a persistence failure occurs inside SetMaster or
AddAuthorized during arrival handling, the mode flags of the state
machine after the handler equal the flags before the call. -/
theorem persist_failure_keeps_mode (s : Service) (uid : String)
    (okMaster okAuth : Bool)
    (h : (handleTagArrival s uid okMaster okAuth).persistErr = true) :
    modeOf (handleTagArrival s uid okMaster okAuth).service = modeOf s := by
  revert h
  unfold handleTagArrival
  split
  · intro h
    exact learnMasterUID_mode_of_err s uid okMaster okAuth h
  · split
    · split
      · intro h; simp [enterLearnMode] at h
      · split
        · intro h; simp [grantAccess] at h
        · intro h; simp at h
    · split
      · intro h; simp [exitLearnMode] at h
      · intro _
        exact learnUID_mode s uid okAuth

/-- Claim C9, witness: a failing master write in master-learning mode
leaves the mode flags unchanged. -/
theorem persist_failure_keeps_mode_app :
    modeOf (handleTagArrival
        ⟨⟨[], []⟩, ⟨[], []⟩, true, false, [], "", 0, 0⟩ "AA" false false).service =
      modeOf ⟨⟨[], []⟩, ⟨[], []⟩, true, false, [], "", 0, 0⟩ :=
  persist_failure_keeps_mode ⟨⟨[], []⟩, ⟨[], []⟩, true, false, [], "", 0, 0⟩
    "AA" false false (by decide)

/-- Claim C10: adding a new identifier with a failing persistence write
returns the newly-added result together with the error, keeps the
identifier in the in-memory authorized set while the on-disk file is
unchanged, and a subsequent AddAuthorized of the same identifier
reports it as already present without another write. -/
theorem addAuthorized_failed_persist_ahead (am : AuthManager) (d : Disk)
    (uid : String) (ok2 : Bool)
    (h1 : containsUID am.masterUIDs (toUpperStr uid) = false)
    (h2 : containsUID am.authorizedUIDs (toUpperStr uid) = false) :
    (AddAuthorized am d uid false).added = true ∧
    (AddAuthorized am d uid false).err = true ∧
    containsUID (AddAuthorized am d uid false).am.authorizedUIDs
      (toUpperStr uid) = true ∧
    (AddAuthorized am d uid false).disk = d ∧
    (AddAuthorized (AddAuthorized am d uid false).am
      (AddAuthorized am d uid false).disk uid ok2).added = false ∧
    (AddAuthorized (AddAuthorized am d uid false).am
      (AddAuthorized am d uid false).disk uid ok2).err = false ∧
    (AddAuthorized (AddAuthorized am d uid false).am
      (AddAuthorized am d uid false).disk uid ok2).disk =
      (AddAuthorized am d uid false).disk := by
  have hfirst := AddAuthorized_of_new am d uid false h1 h2
  have hsecond :
      AddAuthorized (AddAuthorized am d uid false).am
        (AddAuthorized am d uid false).disk uid ok2 =
        ⟨(AddAuthorized am d uid false).am, (AddAuthorized am d uid false).disk,
         false, false⟩ :=
    AddAuthorized_of_present _ _ _ _
      (Bool.or_eq_true_iff.mp (AddAuthorized_contains am d uid false))
  rw [hsecond, hfirst]
  exact ⟨rfl, rfl, containsUID_append_self _ _, rfl, rfl, rfl, rfl⟩

/-- Claim C10, witness: authorizing EE with a failing write against a
store whose master is AA, then re-adding EE. -/
theorem addAuthorized_failed_persist_ahead_app :
    (AddAuthorized ⟨["AA"], []⟩ ⟨["AA"], []⟩ "EE" false).added = true ∧
    (AddAuthorized ⟨["AA"], []⟩ ⟨["AA"], []⟩ "EE" false).err = true ∧
    containsUID (AddAuthorized ⟨["AA"], []⟩ ⟨["AA"], []⟩ "EE" false).am.authorizedUIDs
      (toUpperStr "EE") = true ∧
    (AddAuthorized ⟨["AA"], []⟩ ⟨["AA"], []⟩ "EE" false).disk = ⟨["AA"], []⟩ ∧
    (AddAuthorized (AddAuthorized ⟨["AA"], []⟩ ⟨["AA"], []⟩ "EE" false).am
      (AddAuthorized ⟨["AA"], []⟩ ⟨["AA"], []⟩ "EE" false).disk "EE" true).added = false ∧
    (AddAuthorized (AddAuthorized ⟨["AA"], []⟩ ⟨["AA"], []⟩ "EE" false).am
      (AddAuthorized ⟨["AA"], []⟩ ⟨["AA"], []⟩ "EE" false).disk "EE" true).err = false ∧
    (AddAuthorized (AddAuthorized ⟨["AA"], []⟩ ⟨["AA"], []⟩ "EE" false).am
      (AddAuthorized ⟨["AA"], []⟩ ⟨["AA"], []⟩ "EE" false).disk "EE" true).disk =
      (AddAuthorized ⟨["AA"], []⟩ ⟨["AA"], []⟩ "EE" false).disk :=
  addAuthorized_failed_persist_ahead ⟨["AA"], []⟩ ⟨["AA"], []⟩ "EE" true
    (by decide) (by decide)
